import Mathlib

/-!
Shallow embedding of the VibeReaderTwo backend core
(`backend/app/routers/books.py`, `backend/app/services/epub_service.py`,
`backend/app/models/book.py`) and proofs about it.

Conventions of the embedding:
* Python floats for reading percentages are modelled as exact rationals
  (the range checks `0.0 <= p <= 1.0` are order comparisons, which the
  rational model reproduces faithfully).
* The SQLAlchemy-backed book table is modelled as a list of records; the
  on-disk book storage is modelled as an association list from paths to
  byte lists.  A router handler becomes a pure function from the prior
  state to the new state paired with an `Except` result (an `HTTPException`
  becomes the `error` case, and a state returned unchanged means nothing
  was committed or written).
* Calls into external libraries (sha256, ebooklib, PIL, the filesystem)
  are modelled as explicit parameters or oracles: a fingerprint function,
  a write outcome, decode and encode oracles that may fail.  The control
  flow around those calls is translated from the source.
-/

/-- Mirrors the `Book` ORM model of `backend/app/models/book.py`
(`books` table).  `datetime` columns are modelled as `Nat` timestamps. -/
structure Book where
  id : Nat
  title : String
  author : String
  publisher : Option String
  file_path : String
  file_size : Nat
  file_hash : String
  cover_image : Option String
  current_cfi : Option String
  current_chapter : Option Int
  percentage : Option ℚ
  location_index : Option Int
  last_read_date : Option Nat
  locations_data : Option String
  isbn : Option String
  language : Option String
  description : Option String
  import_date : Nat
deriving Repr, DecidableEq

/-- The persistent state the `books` router manipulates: the book table
plus the content-addressed file storage (path to stored bytes). -/
structure LibraryState where
  records : List Book
  files : List (String × List Nat)
deriving Repr, DecidableEq

/-- Mirrors the `ProgressUpdate` pydantic schema of
`backend/app/routers/books.py`: every field optional. -/
structure ProgressUpdate where
  current_cfi : Option String := none
  current_chapter : Option Int := none
  percentage : Option ℚ := none
deriving Repr, DecidableEq

/-- Error outcomes of the `PATCH /api/books/id/progress` handler:
404 when the book id is unknown, 400 with the offending value when the
percentage is outside the closed interval [0, 1]. -/
inductive ProgressError where
  | bookNotFound
  | percentageOutOfRange (value : ℚ)
deriving Repr, DecidableEq

/-- The range validation of `update_progress` (`books.py` lines 227-233):
`if progress.percentage is not None: if not (0.0 <= progress.percentage <= 1.0): raise`.
Returns the offending value when the update must be rejected. -/
def percentageViolation (progress : ProgressUpdate) : Option ℚ :=
  match progress.percentage with
  | some v => if 0 ≤ v ∧ v ≤ 1 then none else some v
  | none => none

/-- The field-merge section of `update_progress` (`books.py` lines 235-243):
each present field overwrites, each absent field is left alone, and
`book.last_read_date = datetime.utcnow()` runs unconditionally. -/
def mergeProgress (book : Book) (progress : ProgressUpdate) (now : Nat) : Book :=
  let book1 := match progress.current_cfi with
    | some v => { book with current_cfi := some v }
    | none => book
  let book2 := match progress.current_chapter with
    | some v => { book1 with current_chapter := some v }
    | none => book1
  let book3 := match progress.percentage with
    | some v => { book2 with percentage := some v }
    | none => book2
  { book3 with last_read_date := some now }

/-- Committing a mutated ORM row: the record with the given primary key is
replaced, all other rows are untouched. -/
def replaceRecord (records : List Book) (bid : Nat) (book : Book) : List Book :=
  records.map (fun r => if r.id == bid then book else r)

/-- The `PATCH /api/books/id/progress` handler `update_progress`
(`books.py` lines 212-247): look the book up by id, 404 when absent,
validate the percentage range, then merge the present fields and commit. -/
def update_progress (st : LibraryState) (bid : Nat) (progress : ProgressUpdate)
    (now : Nat) : LibraryState × Except ProgressError Book :=
  match st.records.find? (fun b => b.id == bid) with
  | none => (st, .error .bookNotFound)
  | some book =>
    match percentageViolation progress with
    | some v => (st, .error (.percentageOutOfRange v))
    | none =>
      let book1 := mergeProgress book progress now
      ({ st with records := replaceRecord st.records bid book1 }, .ok book1)

/-- A concrete book row used by the witnesses. -/
def bookDemo : Book :=
  { id := 1, title := "Walden", author := "Thoreau", publisher := none
    file_path := "books/hde.epub", file_size := 2, file_hash := "hde"
    cover_image := none, current_cfi := some "epubcfi(/6/2)", current_chapter := some 1
    percentage := some (1/4), location_index := none, last_read_date := some 10
    locations_data := none, isbn := none, language := none, description := none
    import_date := 3 }

/-- A concrete library state used by the witnesses. -/
def stateDemo : LibraryState :=
  { records := [bookDemo], files := [("books/hde.epub", [7, 8])] }

lemma mergeProgress_cfi_some (book : Book) (progress : ProgressUpdate) (now : Nat)
    (v : String) (h : progress.current_cfi = some v) :
    (mergeProgress book progress now).current_cfi = some v := by
  rcases progress with ⟨c, ch, p⟩
  cases c <;> cases ch <;> cases p <;> simp_all [mergeProgress]

lemma mergeProgress_cfi_none (book : Book) (progress : ProgressUpdate) (now : Nat)
    (h : progress.current_cfi = none) :
    (mergeProgress book progress now).current_cfi = book.current_cfi := by
  rcases progress with ⟨c, ch, p⟩
  cases c <;> cases ch <;> cases p <;> simp_all [mergeProgress]

lemma mergeProgress_chapter_some (book : Book) (progress : ProgressUpdate) (now : Nat)
    (v : Int) (h : progress.current_chapter = some v) :
    (mergeProgress book progress now).current_chapter = some v := by
  rcases progress with ⟨c, ch, p⟩
  cases c <;> cases ch <;> cases p <;> simp_all [mergeProgress]

lemma mergeProgress_chapter_none (book : Book) (progress : ProgressUpdate) (now : Nat)
    (h : progress.current_chapter = none) :
    (mergeProgress book progress now).current_chapter = book.current_chapter := by
  rcases progress with ⟨c, ch, p⟩
  cases c <;> cases ch <;> cases p <;> simp_all [mergeProgress]

lemma mergeProgress_percentage_some (book : Book) (progress : ProgressUpdate) (now : Nat)
    (v : ℚ) (h : progress.percentage = some v) :
    (mergeProgress book progress now).percentage = some v := by
  rcases progress with ⟨c, ch, p⟩
  cases c <;> cases ch <;> cases p <;> simp_all [mergeProgress]

lemma mergeProgress_percentage_none (book : Book) (progress : ProgressUpdate) (now : Nat)
    (h : progress.percentage = none) :
    (mergeProgress book progress now).percentage = book.percentage := by
  rcases progress with ⟨c, ch, p⟩
  cases c <;> cases ch <;> cases p <;> simp_all [mergeProgress]

lemma mergeProgress_timestamp (book : Book) (progress : ProgressUpdate) (now : Nat) :
    (mergeProgress book progress now).last_read_date = some now := by
  rcases progress with ⟨c, ch, p⟩
  cases c <;> cases ch <;> cases p <;> simp_all [mergeProgress]

lemma mergeProgress_frame (book : Book) (progress : ProgressUpdate) (now : Nat) :
    (mergeProgress book progress now).id = book.id ∧
    (mergeProgress book progress now).title = book.title ∧
    (mergeProgress book progress now).author = book.author ∧
    (mergeProgress book progress now).file_hash = book.file_hash ∧
    (mergeProgress book progress now).file_path = book.file_path := by
  rcases progress with ⟨c, ch, p⟩
  cases c <;> cases ch <;> cases p <;> simp_all [mergeProgress]

/-- C2: a position update whose percentage lies outside [0, 1] is rejected
with the range-violation error carrying that value, and the whole state is
returned unchanged — so no field of the prior position (nor of any other
record) changes, even when the update also carries other valid fields. -/
theorem update_progress_rejects_out_of_range (st : LibraryState) (bid : Nat)
    (progress : ProgressUpdate) (now : Nat) (book : Book) (v : ℚ)
    (hfind : st.records.find? (fun b => b.id == bid) = some book)
    (hp : progress.percentage = some v)
    (hv : ¬ (0 ≤ v ∧ v ≤ 1)) :
    update_progress st bid progress now = (st, .error (.percentageOutOfRange v)) := by
  unfold update_progress
  rw [hfind]
  unfold percentageViolation
  rw [hp]
  simp [hv]

/-- Witness for C2: the demo book holds percentage 1/4; an update carrying
percentage 3/2 together with other valid fields is rejected and the state
(hence the stored percentage, token, chapter and timestamp) is unchanged. -/
theorem update_progress_rejects_out_of_range_witness :
    update_progress stateDemo 1
      { current_cfi := some "epubcfi(/6/4)", current_chapter := some 2
        percentage := some (3/2) } 77 =
      (stateDemo, .error (.percentageOutOfRange (3/2))) :=
  update_progress_rejects_out_of_range stateDemo 1
    { current_cfi := some "epubcfi(/6/4)", current_chapter := some 2
      percentage := some (3/2) } 77 bookDemo (3/2) rfl rfl (by norm_num)

/-- C3: an accepted position update merges field by field — every present
field of the update overwrites the stored field, every absent field keeps
its prior value — and `last_read_date` is set to the current time in every
case; identity fields of the record are untouched. -/
theorem update_progress_merges_fields (st : LibraryState) (bid : Nat)
    (progress : ProgressUpdate) (now : Nat) (book : Book)
    (hfind : st.records.find? (fun b => b.id == bid) = some book)
    (hok : percentageViolation progress = none) :
    ∃ book1 : Book,
      update_progress st bid progress now =
        ({ st with records := replaceRecord st.records bid book1 }, .ok book1) ∧
      (∀ v, progress.current_cfi = some v → book1.current_cfi = some v) ∧
      (progress.current_cfi = none → book1.current_cfi = book.current_cfi) ∧
      (∀ v, progress.current_chapter = some v → book1.current_chapter = some v) ∧
      (progress.current_chapter = none → book1.current_chapter = book.current_chapter) ∧
      (∀ v, progress.percentage = some v → book1.percentage = some v) ∧
      (progress.percentage = none → book1.percentage = book.percentage) ∧
      book1.last_read_date = some now ∧
      book1.id = book.id ∧ book1.title = book.title ∧ book1.file_hash = book.file_hash := by
  refine ⟨mergeProgress book progress now, ?_, ?_, ?_, ?_, ?_, ?_, ?_, ?_, ?_, ?_, ?_⟩
  · unfold update_progress
    rw [hfind, hok]
  · intro v hv; exact mergeProgress_cfi_some book progress now v hv
  · intro hv; exact mergeProgress_cfi_none book progress now hv
  · intro v hv; exact mergeProgress_chapter_some book progress now v hv
  · intro hv; exact mergeProgress_chapter_none book progress now hv
  · intro v hv; exact mergeProgress_percentage_some book progress now v hv
  · intro hv; exact mergeProgress_percentage_none book progress now hv
  · exact mergeProgress_timestamp book progress now
  · exact (mergeProgress_frame book progress now).1
  · exact (mergeProgress_frame book progress now).2.1
  · exact (mergeProgress_frame book progress now).2.2.2.1

/-- Witness for C3: an update carrying only a chapter index is accepted on
the demo state; the merged record keeps the prior token and percentage and
picks up the fresh timestamp. -/
theorem update_progress_merges_fields_witness :
    ∃ book1 : Book,
      update_progress stateDemo 1 { current_chapter := some 4 } 99 =
        ({ stateDemo with records := replaceRecord stateDemo.records 1 book1 }, .ok book1) ∧
      (∀ v, (none : Option String) = some v → book1.current_cfi = some v) ∧
      ((none : Option String) = none → book1.current_cfi = bookDemo.current_cfi) ∧
      (∀ v, (some 4 : Option Int) = some v → book1.current_chapter = some v) ∧
      ((some 4 : Option Int) = none → book1.current_chapter = bookDemo.current_chapter) ∧
      (∀ v, (none : Option ℚ) = some v → book1.percentage = some v) ∧
      ((none : Option ℚ) = none → book1.percentage = bookDemo.percentage) ∧
      book1.last_read_date = some 99 ∧
      book1.id = bookDemo.id ∧ book1.title = bookDemo.title ∧
      book1.file_hash = bookDemo.file_hash :=
  update_progress_merges_fields stateDemo 1 { current_chapter := some 4 } 99 bookDemo
    rfl rfl

/-- Python's `str.endswith` on the uploaded filename, as a kernel-reducible
list computation on characters. -/
def strEndsWith (s pat : String) : Bool :=
  pat.data.isSuffixOf s.data

/-- The metadata dictionary produced by `EpubService.extract_metadata`
(`epub_service.py` lines 51-58). -/
structure Metadata where
  title : String
  author : String
  publisher : Option String
  language : Option String
  description : Option String
  isbn : Option String
deriving Repr, DecidableEq

/-- The all-default metadata returned when the EPUB cannot be read
(`epub_service.py` lines 62-69). -/
def defaultMetadata : Metadata :=
  { title := "Unknown Title", author := "Unknown Author", publisher := none
    language := none, description := none, isbn := none }

/-- Error outcomes of the `POST /api/books/import` handler: 400 for a
non-`.epub` filename, 409 `DuplicateContent` carrying the conflicting
record's title and author, 500 for any exception caught by the broad
`except` block (a storage write failure among them). -/
inductive ImportError where
  | invalidFileType
  | duplicateContent (title author : String)
  | importFailed
deriving Repr, DecidableEq

/-- Outcome oracle for the storage write in `EpubService.save_epub_file`
(`epub_service.py` lines 133-135): either `f.write(content)` completes, or
it raises after `k` bytes have already reached the file opened with mode
"wb" (the `with` block closes the file and the exception propagates). -/
inductive WriteOutcome where
  | success
  | failAfter (k : Nat)
deriving Repr, DecidableEq

/-- The uploaded multipart file: its client-supplied name and raw bytes. -/
structure UploadIn where
  filename : String
  content : List Nat
deriving Repr, DecidableEq

/-- The `settings.books_dir` storage root (its concrete value is
environment-dependent and irrelevant to the claims). -/
def books_dir : String := "books"

/-- The content-addressed storage path `settings.books_dir / f-hash.epub`
of `epub_service.py` line 130. -/
def epubPath (fhash : String) : String :=
  books_dir ++ "/" ++ fhash ++ ".epub"

/-- Writing a file with `open(path, "wb")`: the entry at `path` is
truncated and replaced when present, created otherwise. -/
def setFile (files : List (String × List Nat)) (path : String) (bytes : List Nat) :
    List (String × List Nat) :=
  if files.any (fun e => e.1 == path) then
    files.map (fun e => if e.1 == path then (path, bytes) else e)
  else files ++ [(path, bytes)]

/-- The `POST /api/books/import` handler `import_book` (`books.py` lines
56-123).  `fingerprint` stands for `EpubService.calculate_file_hash`
(sha256, an external deterministic function); `meta` and `cover` stand for
the results of `extract_metadata` and `extract_cover` on the stored file
(both total, proved never to raise elsewhere in this file); `newId` is the
autoincrement key the database assigns on commit.  Control flow from the
source: reject a non-`.epub` filename before the `try` block; hash; query
for an existing record with the same hash and fail with 409 before any
write; write the bytes to the content-addressed path (a failure there is
caught by the broad `except`, which rolls the session back — note no
cleanup of the file is attempted); assemble the record and commit. -/
def import_book (st : LibraryState) (upload : UploadIn)
    (fingerprint : List Nat → String) (meta : Metadata) (cover : Option String)
    (outcome : WriteOutcome) (newId now : Nat) :
    LibraryState × Except ImportError Book :=
  if strEndsWith upload.filename ".epub" = false then (st, .error .invalidFileType)
  else
    let fhash := fingerprint upload.content
    match st.records.find? (fun b => b.file_hash == fhash) with
    | some existing => (st, .error (.duplicateContent existing.title existing.author))
    | none =>
      let path := epubPath fhash
      match outcome with
      | .failAfter k =>
        ({ st with files := setFile st.files path (upload.content.take k) },
         .error .importFailed)
      | .success =>
        let files1 := setFile st.files path upload.content
        let book : Book :=
          { id := newId, title := meta.title, author := meta.author
            publisher := meta.publisher, file_path := path
            file_size := upload.content.length, file_hash := fhash
            cover_image := cover, current_cfi := none, current_chapter := none
            percentage := none, location_index := none, last_read_date := none
            locations_data := none, isbn := meta.isbn, language := meta.language
            description := meta.description, import_date := now }
        ({ records := st.records ++ [book], files := files1 }, .ok book)

/-- The `DELETE /api/books/id` handler `delete_book` (`books.py` lines
250-275).  `unlinkFails` is the oracle for the `try` block around
`file_path.unlink()`: when the filesystem call raises, the exception is
swallowed (only a warning is printed) and the handler proceeds to delete
the database row and return the success message. -/
def delete_book (st : LibraryState) (bid : Nat) (unlinkFails : Bool) :
    LibraryState × Except Unit String :=
  match st.records.find? (fun b => b.id == bid) with
  | none => (st, .error ())
  | some book =>
    let files1 := if unlinkFails then st.files
      else st.files.filter (fun e => e.1 != book.file_path)
    ({ records := st.records.eraseP (fun r => r.id == bid), files := files1 },
     .ok "Book deleted successfully")

/-- C1: when some record already carries the fingerprint of the uploaded
bytes, the import fails with `DuplicateContent` holding that record's
title and author, and the returned state is exactly the prior state —
no stored file and no record is added — for every write outcome, so the
failure happens before storage is touched. -/
theorem import_book_rejects_duplicate (st : LibraryState) (upload : UploadIn)
    (fingerprint : List Nat → String) (meta : Metadata) (cover : Option String)
    (outcome : WriteOutcome) (newId now : Nat) (existing : Book)
    (hname : strEndsWith upload.filename ".epub" = true)
    (hdup : st.records.find? (fun b => b.file_hash == fingerprint upload.content) =
      some existing) :
    import_book st upload fingerprint meta cover outcome newId now =
      (st, .error (.duplicateContent existing.title existing.author)) ∧
    existing.file_hash = fingerprint upload.content := by
  constructor
  · unfold import_book
    rw [hname]
    simp only [Bool.true_eq_false, if_false]
    rw [hdup]
  · have := List.find?_some hdup
    simpa using this

/-- Witness for C1: importing bytes whose fingerprint matches the demo
record fails with the demo record's title and author and leaves the demo
state unchanged, even under a write outcome that would have stored bytes. -/
theorem import_book_rejects_duplicate_witness :
    import_book stateDemo { filename := "copy.epub", content := [7, 8] }
        (fun _ => "hde") defaultMetadata none .success 2 50 =
      (stateDemo, .error (.duplicateContent "Walden" "Thoreau")) ∧
    bookDemo.file_hash = (fun _ : List Nat => "hde") [7, 8] :=
  import_book_rejects_duplicate stateDemo { filename := "copy.epub", content := [7, 8] }
    (fun _ => "hde") defaultMetadata none .success 2 50 bookDemo rfl rfl

/-- C9: an upload whose filename does not end with ".epub" is rejected
with the invalid-file-type error and the state is returned unchanged, for
every fingerprint function, record set and write outcome — the rejection
precedes hashing, the duplicate query and any storage write. -/
theorem import_book_rejects_non_epub (st : LibraryState) (upload : UploadIn)
    (fingerprint : List Nat → String) (meta : Metadata) (cover : Option String)
    (outcome : WriteOutcome) (newId now : Nat)
    (hname : strEndsWith upload.filename ".epub" = false) :
    import_book st upload fingerprint meta cover outcome newId now =
      (st, .error .invalidFileType) := by
  unfold import_book
  rw [hname]
  simp

/-- Witness for C9: a ".txt" upload is rejected on the demo state, with a
write outcome that would have stored bytes had the check not come first. -/
theorem import_book_rejects_non_epub_witness :
    import_book stateDemo { filename := "notes.txt", content := [1] }
        (fun _ => "zzz") defaultMetadata none .success 2 50 =
      (stateDemo, .error .invalidFileType) :=
  import_book_rejects_non_epub stateDemo { filename := "notes.txt", content := [1] }
    (fun _ => "zzz") defaultMetadata none .success 2 50 rfl

/-- Counterexample to C8 as stated: on an import into the empty library
whose storage write fails after one byte, no record is persisted and
the handler errors — but the partially written byte is NOT cleaned up: the file
at the content-addressed path remains, holding the written prefix. -/
theorem import_book_write_failure_leaves_partial_file :
    (import_book { records := [], files := [] }
        { filename := "w.epub", content := [7, 8] } (fun _ => "hw")
        defaultMetadata none (.failAfter 1) 1 0).1.records = [] ∧
    (import_book { records := [], files := [] }
        { filename := "w.epub", content := [7, 8] } (fun _ => "hw")
        defaultMetadata none (.failAfter 1) 1 0).2 = .error .importFailed ∧
    (import_book { records := [], files := [] }
        { filename := "w.epub", content := [7, 8] } (fun _ => "hw")
        defaultMetadata none (.failAfter 1) 1 0).1.files =
      [(epubPath "hw", [7])] ∧
    [(epubPath "hw", [7])] ≠ ([] : List (String × List Nat)) := by
  refine ⟨rfl, rfl, rfl, by decide⟩

/-- C8 as amended: when the storage write fails during an import (valid
filename, no duplicate), no book record is assembled or persisted and the
handler reports failure, but the partially written bytes are not cleaned
up — the file at the content-addressed path holds the prefix that reached
the disk before the failure. -/
theorem import_book_write_failure_no_record (st : LibraryState) (upload : UploadIn)
    (fingerprint : List Nat → String) (meta : Metadata) (cover : Option String)
    (k newId now : Nat)
    (hname : strEndsWith upload.filename ".epub" = true)
    (hdup : st.records.find? (fun b => b.file_hash == fingerprint upload.content) =
      none) :
    import_book st upload fingerprint meta cover (.failAfter k) newId now =
      ({ st with
          files := setFile st.files (epubPath (fingerprint upload.content))
            (upload.content.take k) },
       .error .importFailed) := by
  unfold import_book
  rw [hname]
  simp only [Bool.true_eq_false, if_false]
  rw [hdup]

/-- Witness for the amended C8: a failing write on the demo state adds the
partial file and leaves the record list as it was. -/
theorem import_book_write_failure_no_record_witness :
    import_book stateDemo { filename := "w.epub", content := [7, 8] }
        (fun _ => "hw") defaultMetadata none (.failAfter 1) 2 50 =
      ({ stateDemo with
          files := setFile stateDemo.files (epubPath "hw") [7] },
       .error .importFailed) :=
  import_book_write_failure_no_record stateDemo
    { filename := "w.epub", content := [7, 8] } (fun _ => "hw")
    defaultMetadata none 1 2 50 rfl rfl

/-- C10: when the book id exists, deletion removes the database record and
returns the success message whether or not the filesystem unlink raises —
the file-deletion failure is absorbed and never surfaces to the caller. -/
theorem delete_book_absorbs_unlink_failure (st : LibraryState) (bid : Nat)
    (book : Book) (unlinkFails : Bool)
    (hfind : st.records.find? (fun b => b.id == bid) = some book) :
    (delete_book st bid unlinkFails).2 = .ok "Book deleted successfully" ∧
    (delete_book st bid unlinkFails).1.records =
      st.records.eraseP (fun r => r.id == bid) := by
  unfold delete_book
  rw [hfind]
  exact ⟨rfl, rfl⟩

/-- Witness for C10: deleting the demo book with a failing unlink still
removes the record and reports success. -/
theorem delete_book_absorbs_unlink_failure_witness :
    (delete_book stateDemo 1 true).2 = .ok "Book deleted successfully" ∧
    (delete_book stateDemo 1 true).1.records =
      stateDemo.records.eraseP (fun r => r.id == 1) :=
  delete_book_absorbs_unlink_failure stateDemo 1 bookDemo true rfl

/-- One Dublin-Core metadata entry as ebooklib stores it: the tuple
`(value, attrs)` where `attrs` is a dict of XML attributes or `None`.
`entry[0]` is the value; `str(entry)` stringifies the whole tuple. -/
structure DcEntry where
  value : String
  attrs : Option (List (String × String))
deriving Repr, DecidableEq

/-- Python `repr` of a string, as it appears inside `str(tuple)`.  (Quote
escaping inside the value is not exercised by any input in this file.) -/
def pyReprStr (s : String) : String :=
  "'" ++ s ++ "'"

/-- Python `str` of the attribute dict (or of `None`). -/
def pyReprAttrs : Option (List (String × String)) → String
  | none => "None"
  | some attrs =>
    "\x7b" ++
      String.intercalate ", "
        (attrs.map (fun kv => pyReprStr kv.1 ++ ": " ++ pyReprStr kv.2)) ++
    "\x7d"

/-- Python `str(identifier)` for a metadata entry: the `repr` of the
`(value, attrs)` tuple. -/
def pyReprEntry (e : DcEntry) : String :=
  "(" ++ pyReprStr e.value ++ ", " ++ pyReprAttrs e.attrs ++ ")"

/-- Python's substring containment `pat in s`, as a kernel-reducible list
computation: some suffix of `s` starts with `pat`. -/
def strContainsSub (s pat : String) : Bool :=
  (List.range (s.data.length + 1)).any (fun i => pat.data.isPrefixOf (s.data.drop i))

/-- Python's `str.upper`, as a kernel-reducible character-list map. -/
def strToUpper (s : String) : String :=
  String.mk (s.data.map Char.toUpper)

/-- Python's `str.lower`, as a kernel-reducible character-list map. -/
def strToLower (s : String) : String :=
  String.mk (s.data.map Char.toLower)

/-- The predicate of the ISBN loop in `extract_metadata`
(`epub_service.py` line 48): `'ISBN' in str(identifier).upper()` — note it
stringifies the whole entry, attributes included, not just the value. -/
def isbnEntryMatch (e : DcEntry) : Bool :=
  strContainsSub (strToUpper (pyReprEntry e)) "ISBN"

/-- The ISBN selection loop of `extract_metadata` (`epub_service.py`
lines 44-50): scan the identifier entries in order, return the value of
the first entry whose `str(...)` (uppercased) contains "ISBN". -/
def findIsbn : List DcEntry → Option String
  | [] => none
  | e :: rest => if isbnEntryMatch e then some e.value else findIsbn rest

/-- Modelled from the claim's words, for comparison with `findIsbn`: the
first identifier entry whose VALUE contains "ISBN" case-insensitively. -/
def findIsbnByValue : List DcEntry → Option String
  | [] => none
  | e :: rest =>
    if strContainsSub (strToUpper e.value) "ISBN" then some e.value else findIsbnByValue rest

/-- The metadata lists ebooklib hands back for each `get_metadata('DC', _)`
call inside `extract_metadata`'s `try` block; each call is an external
lookup that either returns a (possibly empty) entry list or raises. -/
structure EpubMeta where
  title : Except Unit (List DcEntry)
  creator : Except Unit (List DcEntry)
  publisher : Except Unit (List DcEntry)
  language : Except Unit (List DcEntry)
  description : Except Unit (List DcEntry)
  identifier : Except Unit (List DcEntry)

/-- The `field[0][0] if field else default` idiom: value of the first
entry, if any. -/
def headValue : List DcEntry → Option String
  | [] => none
  | e :: _ => some e.value

/-- The body of `extract_metadata`'s `try` block (`epub_service.py` lines
26-59): the six lookups run in order, and the first one that raises aborts
the whole block (the exception is the `error` case). -/
def extract_metadata_core (m : EpubMeta) : Except Unit Metadata := do
  let titleL ← m.title
  let title := (headValue titleL).getD "Unknown Title"
  let creatorL ← m.creator
  let author := (headValue creatorL).getD "Unknown Author"
  let publisherL ← m.publisher
  let publisher := headValue publisherL
  let languageL ← m.language
  let language := headValue languageL
  let descriptionL ← m.description
  let description := headValue descriptionL
  let identifierL ← m.identifier
  let isbn := if identifierL.isEmpty then none else findIsbn identifierL
  pure { title := title, author := author, publisher := publisher
         language := language, description := description, isbn := isbn }

/-- `EpubService.extract_metadata` (`epub_service.py` lines 22-69):
`none` models `epub.read_epub` itself raising (unopenable container); any
exception inside the `try` block is caught by the broad `except`, which
returns the all-default dictionary.  The function is total: it never
raises. -/
def extract_metadata : Option EpubMeta → Metadata
  | none => defaultMetadata
  | some m =>
    match extract_metadata_core m with
    | .error _ => defaultMetadata
    | .ok md => md

/-- Whether every field lookup of the container succeeds (no exception). -/
def exOk : Except Unit (List DcEntry) → Bool
  | .ok _ => true
  | .error _ => false

/-- Conjunction of `exOk` over the six lookups of `extract_metadata`. -/
def epubMetaOk (m : EpubMeta) : Bool :=
  exOk m.title && exOk m.creator && exOk m.publisher && exOk m.language &&
    exOk m.description && exOk m.identifier

lemma extract_metadata_all_ok (tl cl pl ll dl il : List DcEntry) :
    extract_metadata (some
      { title := .ok tl, creator := .ok cl, publisher := .ok pl
        language := .ok ll, description := .ok dl, identifier := .ok il }) =
      { title := (headValue tl).getD "Unknown Title"
        author := (headValue cl).getD "Unknown Author"
        publisher := headValue pl, language := headValue ll
        description := headValue dl
        isbn := if il.isEmpty then none else findIsbn il } := rfl

lemma epubMetaOk_elim (m : EpubMeta) (h : epubMetaOk m = true) :
    ∃ tl cl pl ll dl il, m =
      { title := .ok tl, creator := .ok cl, publisher := .ok pl
        language := .ok ll, description := .ok dl, identifier := .ok il } := by
  rcases m with ⟨t, c, p, l, d, i⟩
  cases t <;> cases c <;> cases p <;> cases l <;> cases d <;> cases i <;>
    first
      | exact ⟨_, _, _, _, _, _, rfl⟩
      | simp [epubMetaOk, exOk] at h

/-- Counterexample to C4 as stated: a container that opens fine, carries a
real title, and whose creator lookup raises.  The broad `except` makes the
whole extraction return the all-default metadata, so the creator failure
does NOT leave the title field unaffected, and an openable container other
than an unopenable one yields the all-default metadata. -/
theorem extract_metadata_not_field_independent :
    extract_metadata (some
      { title := .ok [{ value := "Real Title", attrs := none }]
        creator := .error (), publisher := .ok [], language := .ok []
        description := .ok [], identifier := .ok [] }) = defaultMetadata ∧
    (extract_metadata (some
      { title := .ok [{ value := "Real Title", attrs := none }]
        creator := .error (), publisher := .ok [], language := .ok []
        description := .ok [], identifier := .ok [] })).title ≠ "Real Title" := by
  exact ⟨rfl, by decide⟩

/-- C4 as amended: extraction never raises (it is a total function); an
unopenable container returns the all-default metadata; an exception in ANY
individual field lookup also makes the whole extraction return the
all-default metadata (fields are not independent across failures); when no
lookup raises, each field falls back independently: an absent field (empty
entry list) yields its own default — the literal placeholder for
title/author, None for the rest — a present field yields its first entry's
value (isbn via the identifier scan), and each output field depends only
on its own input field. -/
theorem extract_metadata_amended :
    extract_metadata none = defaultMetadata ∧
    (∀ m, epubMetaOk m = false → extract_metadata (some m) = defaultMetadata) ∧
    (∀ m, epubMetaOk m = true → m.title = .ok [] →
      (extract_metadata (some m)).title = "Unknown Title") ∧
    (∀ m e rest, epubMetaOk m = true → m.title = .ok (e :: rest) →
      (extract_metadata (some m)).title = e.value) ∧
    (∀ m, epubMetaOk m = true → m.creator = .ok [] →
      (extract_metadata (some m)).author = "Unknown Author") ∧
    (∀ m e rest, epubMetaOk m = true → m.creator = .ok (e :: rest) →
      (extract_metadata (some m)).author = e.value) ∧
    (∀ m, epubMetaOk m = true → m.publisher = .ok [] →
      (extract_metadata (some m)).publisher = none) ∧
    (∀ m e rest, epubMetaOk m = true → m.publisher = .ok (e :: rest) →
      (extract_metadata (some m)).publisher = some e.value) ∧
    (∀ m, epubMetaOk m = true → m.language = .ok [] →
      (extract_metadata (some m)).language = none) ∧
    (∀ m e rest, epubMetaOk m = true → m.language = .ok (e :: rest) →
      (extract_metadata (some m)).language = some e.value) ∧
    (∀ m, epubMetaOk m = true → m.description = .ok [] →
      (extract_metadata (some m)).description = none) ∧
    (∀ m e rest, epubMetaOk m = true → m.description = .ok (e :: rest) →
      (extract_metadata (some m)).description = some e.value) ∧
    (∀ m, epubMetaOk m = true → m.identifier = .ok [] →
      (extract_metadata (some m)).isbn = none) ∧
    (∀ m ids, epubMetaOk m = true → m.identifier = .ok ids →
      (extract_metadata (some m)).isbn =
        if ids.isEmpty then none else findIsbn ids) ∧
    (∀ m m2, epubMetaOk m = true → epubMetaOk m2 = true → m.title = m2.title →
      (extract_metadata (some m)).title = (extract_metadata (some m2)).title) ∧
    (∀ m m2, epubMetaOk m = true → epubMetaOk m2 = true → m.creator = m2.creator →
      (extract_metadata (some m)).author = (extract_metadata (some m2)).author) ∧
    (∀ m m2, epubMetaOk m = true → epubMetaOk m2 = true → m.publisher = m2.publisher →
      (extract_metadata (some m)).publisher = (extract_metadata (some m2)).publisher) ∧
    (∀ m m2, epubMetaOk m = true → epubMetaOk m2 = true → m.language = m2.language →
      (extract_metadata (some m)).language = (extract_metadata (some m2)).language) ∧
    (∀ m m2, epubMetaOk m = true → epubMetaOk m2 = true →
      m.description = m2.description →
      (extract_metadata (some m)).description =
        (extract_metadata (some m2)).description) ∧
    (∀ m m2, epubMetaOk m = true → epubMetaOk m2 = true →
      m.identifier = m2.identifier →
      (extract_metadata (some m)).isbn = (extract_metadata (some m2)).isbn) := by
  refine ⟨rfl, ?_, ?_, ?_, ?_, ?_, ?_, ?_, ?_, ?_, ?_, ?_, ?_, ?_, ?_, ?_, ?_, ?_, ?_, ?_⟩
  · intro m hbad
    rcases m with ⟨t, c, p, l, d, i⟩
    cases t <;> cases c <;> cases p <;> cases l <;> cases d <;> cases i <;>
      first
        | rfl
        | simp [epubMetaOk, exOk] at hbad
  all_goals
    first
      | (intro m h1 hf
         obtain ⟨tl, cl, pl, ll, dl, il, rfl⟩ := epubMetaOk_elim m h1
         simp only [Except.ok.injEq] at hf
         subst hf
         rfl)
      | (intro m e rest h1 hf
         obtain ⟨tl, cl, pl, ll, dl, il, rfl⟩ := epubMetaOk_elim m h1
         simp only [Except.ok.injEq] at hf
         subst hf
         rfl)
      | (intro m ids h1 hf
         obtain ⟨tl, cl, pl, ll, dl, il, rfl⟩ := epubMetaOk_elim m h1
         simp only [Except.ok.injEq] at hf
         subst hf
         rfl)
      | (intro m m2 h1 h2 heq
         obtain ⟨tl, cl, pl, ll, dl, il, rfl⟩ := epubMetaOk_elim m h1
         obtain ⟨tl2, cl2, pl2, ll2, dl2, il2, rfl⟩ := epubMetaOk_elim m2 h2
         simp only [Except.ok.injEq] at heq
         subst heq
         rfl)

/-- Concrete container whose publisher lookup raises, for the witness. -/
def metaProbeBad : EpubMeta :=
  { title := .ok [], creator := .ok [], publisher := .error ()
    language := .ok [], description := .ok [], identifier := .ok [] }

/-- Concrete container with a title and nothing else, for the witness. -/
def metaProbeA : EpubMeta :=
  { title := .ok [{ value := "T", attrs := none }], creator := .ok []
    publisher := .ok [], language := .ok [], description := .ok []
    identifier := .ok [] }

/-- Concrete container with the same title but a different author list,
for the witness. -/
def metaProbeB : EpubMeta :=
  { title := .ok [{ value := "T", attrs := none }]
    creator := .ok [{ value := "A", attrs := none }]
    publisher := .ok [], language := .ok [], description := .ok []
    identifier := .ok [] }

/-- Witness for the amended C4: a failing publisher lookup collapses the
extraction to the all-default metadata; on an all-ok container whose
creator list is empty but whose title is present, the title comes out as
the first entry's value while the author independently falls back to its
literal default; and the extracted title agrees between two all-ok
containers that share a title field. -/
theorem extract_metadata_amended_witness :
    extract_metadata (some metaProbeBad) = defaultMetadata ∧
    (extract_metadata (some metaProbeA)).title = "T" ∧
    (extract_metadata (some metaProbeA)).author = "Unknown Author" ∧
    (extract_metadata (some metaProbeA)).publisher = none ∧
    (extract_metadata (some metaProbeA)).title =
      (extract_metadata (some metaProbeB)).title :=
  ⟨extract_metadata_amended.2.1 metaProbeBad rfl,
   extract_metadata_amended.2.2.2.1 metaProbeA
     { value := "T", attrs := none } [] rfl rfl,
   extract_metadata_amended.2.2.2.2.1 metaProbeA rfl rfl,
   extract_metadata_amended.2.2.2.2.2.2.1 metaProbeA rfl rfl,
   extract_metadata_amended.2.2.2.2.2.2.2.2.2.2.2.2.2.2.1 metaProbeA metaProbeB
     rfl rfl rfl⟩

/-- Counterexample to C7 as stated: an identifier entry whose VALUE is a
bare number but whose attribute dict says `id: isbn`.  Because the code
tests `'ISBN' in str(identifier).upper()` — the string form of the whole
`(value, attrs)` tuple — it selects this entry and returns "12345", while
the claim's value-based rule would find no match and yield None. -/
theorem findIsbn_matches_attrs_not_value :
    findIsbn [{ value := "12345", attrs := some [("id", "isbn")] }] = some "12345" ∧
    findIsbnByValue [{ value := "12345", attrs := some [("id", "isbn")] }] = none := by
  exact ⟨by decide, by decide⟩

/-- C7 as amended: the scan examines the identifier entries in order and
returns the value of the first entry whose Python string form — the value
together with its attributes — contains "ISBN" case-insensitively; when no
entry's string form contains it, the result is None. -/
theorem findIsbn_first_match (ids : List DcEntry) :
    (findIsbn ids = none ↔ ∀ e ∈ ids, isbnEntryMatch e = false) ∧
    (∀ v, findIsbn ids = some v →
      ∃ pre e post, ids = pre ++ e :: post ∧ isbnEntryMatch e = true ∧
        v = e.value ∧ ∀ x ∈ pre, isbnEntryMatch x = false) := by
  induction ids with
  | nil =>
    refine ⟨by simp [findIsbn], ?_⟩
    intro v h
    simp [findIsbn] at h
  | cons e rest ih =>
    constructor
    · by_cases hm : isbnEntryMatch e
      · simp [findIsbn, hm]
      · simp only [findIsbn, hm, if_false, Bool.false_eq_true]
        rw [ih.1]
        simp [hm]
    · intro v hv
      by_cases hm : isbnEntryMatch e
      · refine ⟨[], e, rest, rfl, hm, ?_, by simp⟩
        simp only [findIsbn, hm, if_true] at hv
        exact (Option.some.injEq _ _ ▸ hv).symm
      · simp only [findIsbn, hm, if_false, Bool.false_eq_true] at hv
        obtain ⟨pre, x, post, h1, h2, h3, h4⟩ := ih.2 v hv
        refine ⟨e :: pre, x, post, by simp [h1], h2, h3, ?_⟩
        intro y hy
        rcases List.mem_cons.mp hy with hy | hy
        · subst hy
          exact Bool.eq_false_iff.mpr hm
        · exact h4 y hy

/-- Witness for the amended C7: on a two-entry list whose first entry does
not mention ISBN anywhere and whose second entry's value does, the scan
returns the second value, and the decomposition exhibits it as the first
match. -/
theorem findIsbn_first_match_witness :
    ∃ pre e post,
      [({ value := "uuid-42", attrs := none } : DcEntry),
       { value := "ISBN 0306406152", attrs := none }] = pre ++ e :: post ∧
      isbnEntryMatch e = true ∧ "ISBN 0306406152" = e.value ∧
      ∀ x ∈ pre, isbnEntryMatch x = false :=
  (findIsbn_first_match
    [{ value := "uuid-42", attrs := none },
     { value := "ISBN 0306406152", attrs := none }]).2 "ISBN 0306406152" (by decide)

/-- The ebooklib item types relevant to `extract_cover`: `ITEM_COVER`
(an entry explicitly typed as the cover), `ITEM_IMAGE`, `ITEM_DOCUMENT`
and everything else. -/
inductive ItemType where
  | cover
  | image
  | document
  | other
deriving Repr, DecidableEq

/-- A manifest item of the opened EPUB: its identifier, its filename
(`get_name()`), its type (`get_type()`) and its bytes (`get_content()`). -/
structure EpubItem where
  id : String
  name : String
  itemType : ItemType
  content : List Nat
deriving Repr, DecidableEq

/-- Python truthiness of the `cover_image` variable in `extract_cover`:
`None` and the empty byte string are falsy, nonempty bytes are truthy.
The source gates every tier with `if not cover_image:` and the final
return with `if cover_image:`, so empty bytes fall through like None. -/
def pyTruthy : Option (List Nat) → Bool
  | none => false
  | some bytes => !bytes.isEmpty

/-- Method 1 of `extract_cover` (`epub_service.py` lines 81-85): scan all
items and take the content of the first one whose `get_type()` is
`ITEM_COVER` — the loop breaks at that item even when its content is
empty. -/
def coverMethod1 (items : List EpubItem) : Option (List Nat) :=
  match items.find? (fun it => it.itemType == .cover) with
  | some it => some it.content
  | none => none

/-- Method 2 of `extract_cover` (`epub_service.py` lines 87-92), guarded
by `if not cover_image:` — Python falsiness, so a tier-1 result with empty
content falls through to here.  The first image-typed item whose
`get_name().lower()` contains "cover" overwrites the variable (the
identifier is not consulted, and the loop breaks there even on empty
content); with no match the prior value is kept. -/
def coverMethod2 (items : List EpubItem) (cover_image : Option (List Nat)) :
    Option (List Nat) :=
  if pyTruthy cover_image then cover_image
  else
    match (items.filter (fun it => it.itemType == .image)).find?
        (fun it => strContainsSub (strToLower it.name) "cover") with
    | some it => some it.content
    | none => cover_image

/-- Method 3 of `extract_cover` (`epub_service.py` lines 94-98), guarded
by `if not cover_image:`: the content of the first image-typed item in
manifest order, if any. -/
def coverMethod3 (items : List EpubItem) (cover_image : Option (List Nat)) :
    Option (List Nat) :=
  if pyTruthy cover_image then cover_image
  else
    match (items.filter (fun it => it.itemType == .image)).head? with
    | some it => some it.content
    | none => cover_image

/-- The candidate-selection part of `EpubService.extract_cover`
(`epub_service.py` lines 78-115), from the source: the three methods run
in sequence over the mutable `cover_image` variable, each gated on the
current value being falsy, and the final `if cover_image:` means a value
that is still falsy — None or empty bytes — yields no candidate. -/
def find_cover_bytes (items : List EpubItem) : Option (List Nat) :=
  if pyTruthy (coverMethod3 items (coverMethod2 items (coverMethod1 items)))
  then coverMethod3 items (coverMethod2 items (coverMethod1 items))
  else none

/-- Modelled from the claim's words, for comparison with
`find_cover_bytes`: three tiers with first match winning, tier 2
selecting the first image-typed item whose IDENTIFIER OR filename
contains "cover" case-insensitively; the claim mentions no treatment of
empty content, so none is modelled here. -/
def find_cover_bytes_claim (items : List EpubItem) : Option (List Nat) :=
  match items.find? (fun it => it.itemType == .cover) with
  | some it => some it.content
  | none =>
    match (items.filter (fun it => it.itemType == .image)).find?
        (fun it => strContainsSub (strToLower it.id) "cover" ||
          strContainsSub (strToLower it.name) "cover") with
    | some it => some it.content
    | none =>
      match (items.filter (fun it => it.itemType == .image)).head? with
      | some it => some it.content
      | none => none

/-- A decoded image as PIL exposes it to `extract_cover`: its pixel
dimensions. -/
structure Img where
  width : Nat
  height : Nat
deriving Repr, DecidableEq

/-- PIL's `round_aspect` choice between floor and ceiling of `600*w/h`
when `Image.thumbnail((400, 600))` is height-constrained: the candidate
closer to the true aspect ratio wins (floor on a tie), and the result is
at least 1.  The key comparison `|w/h - n/600| <= |w/h - m/600|` is
cross-multiplied into integers. -/
def roundAspectW (w h : Nat) : Nat :=
  let f := 600 * w / h
  let c := (600 * w + h - 1) / h
  let n := if ((600 * w : Int) - f * h).natAbs ≤ ((600 * w : Int) - c * h).natAbs
    then f else c
  max n 1

/-- PIL's `round_aspect` choice for `400*h/w` when the thumbnail is
width-constrained.  The key is `0 if n == 0 else |w/h - 400/n|`; comparing
`key f <= key c` cross-multiplies to `|w*f - 400*h| * c <= |w*c - 400*h| * f`
(both candidates positive), and a zero candidate has key 0. -/
def roundAspectH (w h : Nat) : Nat :=
  let f := 400 * h / w
  let c := (400 * h + w - 1) / w
  let keyF : Nat := if f = 0 then 0 else ((w * f : Int) - 400 * h).natAbs * c
  let keyC : Nat := if c = 0 then 0 else ((w * c : Int) - 400 * h).natAbs * f
  let n := if keyF ≤ keyC then f else c
  max n 1

/-- `Image.thumbnail((400, 600), LANCZOS)` on an image of the given
dimensions (`epub_service.py` lines 104-106), following PIL's
`preserve_aspect_ratio`: no resize when the image already fits the
400 by 600 box; otherwise the constrained axis is clamped and the other
axis is scaled to preserve the aspect ratio, rounded to an integer of at
least 1. -/
def thumbnail_dims (w h : Nat) : Nat × Nat :=
  if 400 ≥ w ∧ 600 ≥ h then (w, h)
  else if 400 * h ≥ 600 * w then (roundAspectW w h, 600)
  else (400, roundAspectH w h)

/-- The image `extract_cover` re-encodes: the decoded cover after
`thumbnail`. -/
def resizeCover (img : Img) : Img :=
  { width := (thumbnail_dims img.width img.height).1
    height := (thumbnail_dims img.width img.height).2 }

/-- The fixed head of the inline cover payload (`epub_service.py`
line 113). -/
def dataUrlHead : String :=
  "data:image/jpeg;base64,"

/-- `EpubService.extract_cover` (`epub_service.py` lines 72-118).
`read = none` models `epub.read_epub` raising; `decode` models
`Image.open` (a failure is a raised exception); `encode` models
`image.save(..., format="JPEG", quality=85)` followed by base64-encoding,
returning the base64 payload of the resized image or failing.  Every
exception inside the `try` is caught by the broad `except`, which returns
None. -/
def extract_cover (read : Option (List EpubItem))
    (decode : List Nat → Option Img) (encode : Img → Option String) :
    Option String :=
  match read with
  | none => none
  | some items =>
    match find_cover_bytes items with
    | none => none
    | some bytes =>
      match decode bytes with
      | none => none
      | some img =>
        match encode (resizeCover img) with
        | none => none
        | some payload => some (dataUrlHead ++ payload)

/-- Counterexample to C5 as stated: two image items, no explicit cover
entry; the second item's IDENTIFIER contains "cover" but no filename does.
The claim's tier 2 ("identifier or filename") selects the second item's
bytes, while the code only inspects `get_name()` and falls through to
tier 3, returning the FIRST image's bytes instead. -/
theorem find_cover_bytes_ignores_identifier :
    find_cover_bytes
      [{ id := "imgA", name := "photo.jpg", itemType := .image, content := [1] },
       { id := "cover-id", name := "art.jpg", itemType := .image, content := [2] }] =
      some [1] ∧
    find_cover_bytes_claim
      [{ id := "imgA", name := "photo.jpg", itemType := .image, content := [1] },
       { id := "cover-id", name := "art.jpg", itemType := .image, content := [2] }] =
      some [2] := by
  exact ⟨by decide, by decide⟩

lemma find?_of_split {α : Type} (p : α → Bool) (pre : List α) (a : α) (post : List α)
    (ha : p a = true) (hpre : ∀ x ∈ pre, p x = false) :
    (pre ++ a :: post).find? p = some a := by
  induction pre with
  | nil =>
    simp [List.find?_cons_of_pos, ha]
  | cons y ys ih =>
    have hy : p y = false := hpre y (by simp)
    rw [List.cons_append, List.find?_cons_of_neg _ (by simp [hy])]
    exact ih (fun x hx => hpre x (by simp [hx]))

lemma pyTruthy_some (bytes : List Nat) (h : bytes ≠ []) :
    pyTruthy (some bytes) = true := by
  cases bytes with
  | nil => exact absurd rfl h
  | cons a l => rfl

lemma coverMethod2_of_truthy (items : List EpubItem) (cov : Option (List Nat))
    (h : pyTruthy cov = true) : coverMethod2 items cov = cov := by
  simp [coverMethod2, h]

lemma coverMethod3_of_truthy (items : List EpubItem) (cov : Option (List Nat))
    (h : pyTruthy cov = true) : coverMethod3 items cov = cov := by
  simp [coverMethod3, h]

/-- C5 as amended: cover resolution is the three-tier first-match search,
with tier 2 matching on the FILENAME only (the identifier is not
consulted), and each tier falling through on Python falsiness: a selected
candidate with empty content is treated as missing and the search
proceeds to the next tier, an empty final candidate yields None.  The
tiers: (1) the first entry explicitly typed as the cover, when its
content is nonempty; a typed cover entry with empty content makes tier 1
falsy; (2) once tier 1 is falsy, the first image-typed entry whose
filename contains "cover" case-insensitively, when its content is
nonempty; (3) once tiers 1-2 are falsy, the first image-typed entry in
manifest order, when its content is nonempty; a still-falsy value, or no
candidate at all, or an unreadable container gives None, and a decode or
encode failure on the selected candidate also gives None rather than an
error. -/
theorem find_cover_bytes_tiers :
    (∀ items pre it post, items = pre ++ it :: post → it.itemType = .cover →
      (∀ x ∈ pre, x.itemType ≠ .cover) → it.content ≠ [] →
      find_cover_bytes items = some it.content) ∧
    (∀ items pre it post, items = pre ++ it :: post → it.itemType = .cover →
      (∀ x ∈ pre, x.itemType ≠ .cover) → it.content = [] →
      pyTruthy (coverMethod1 items) = false) ∧
    (∀ items pre it post, pyTruthy (coverMethod1 items) = false →
      items.filter (fun x => x.itemType == .image) = pre ++ it :: post →
      strContainsSub (strToLower it.name) "cover" = true →
      (∀ x ∈ pre, strContainsSub (strToLower x.name) "cover" = false) →
      it.content ≠ [] →
      find_cover_bytes items = some it.content) ∧
    (∀ items it rest,
      pyTruthy (coverMethod2 items (coverMethod1 items)) = false →
      items.filter (fun x => x.itemType == .image) = it :: rest →
      it.content ≠ [] →
      find_cover_bytes items = some it.content) ∧
    (∀ items,
      pyTruthy (coverMethod3 items (coverMethod2 items (coverMethod1 items))) =
        false →
      find_cover_bytes items = none) ∧
    (∀ items, (∀ x ∈ items, x.itemType ≠ .cover) →
      items.filter (fun x => x.itemType == .image) = [] →
      find_cover_bytes items = none) ∧
    (∀ decode encode, extract_cover none decode encode = none) ∧
    (∀ items decode encode bytes, find_cover_bytes items = some bytes →
      decode bytes = none → extract_cover (some items) decode encode = none) ∧
    (∀ items decode encode bytes img, find_cover_bytes items = some bytes →
      decode bytes = some img → encode (resizeCover img) = none →
      extract_cover (some items) decode encode = none) := by
  refine ⟨?_, ?_, ?_, ?_, ?_, ?_, ?_, ?_, ?_⟩
  · intro items pre it post hsplit hcov hpre hne
    subst hsplit
    have h1 : coverMethod1 (pre ++ it :: post) = some it.content := by
      unfold coverMethod1
      rw [find?_of_split _ pre it post (by simp [hcov])
        (fun x hx => by simp [hpre x hx])]
    have ht := pyTruthy_some it.content hne
    unfold find_cover_bytes
    rw [h1, coverMethod2_of_truthy _ _ ht, coverMethod3_of_truthy _ _ ht,
      if_pos ht]
  · intro items pre it post hsplit hcov hpre hempty
    subst hsplit
    have h1 : coverMethod1 (pre ++ it :: post) = some it.content := by
      unfold coverMethod1
      rw [find?_of_split _ pre it post (by simp [hcov])
        (fun x hx => by simp [hpre x hx])]
    rw [h1, hempty]
    rfl
  · intro items pre it post hfalsy hfil hname hpre hne
    have h2 : coverMethod2 items (coverMethod1 items) = some it.content := by
      unfold coverMethod2
      rw [hfalsy]
      simp only [Bool.false_eq_true, if_false]
      rw [hfil, find?_of_split _ pre it post hname hpre]
    have ht := pyTruthy_some it.content hne
    unfold find_cover_bytes
    rw [h2, coverMethod3_of_truthy _ _ ht, if_pos ht]
  · intro items it rest hfalsy hfil hne
    have h3 : coverMethod3 items (coverMethod2 items (coverMethod1 items)) =
        some it.content := by
      unfold coverMethod3
      rw [hfalsy]
      simp only [Bool.false_eq_true, if_false]
      rw [hfil]
      rfl
    have ht := pyTruthy_some it.content hne
    unfold find_cover_bytes
    rw [h3, if_pos ht]
  · intro items hfalsy
    unfold find_cover_bytes
    rw [hfalsy]
    simp only [Bool.false_eq_true, if_false]
  · intro items hnc hfil
    have h1 : coverMethod1 items = none := by
      unfold coverMethod1
      rw [List.find?_eq_none.mpr (fun x hx => by simp [hnc x hx])]
    have h2 : coverMethod2 items none = none := by
      simp [coverMethod2, pyTruthy, hfil]
    have h3 : coverMethod3 items none = none := by
      simp [coverMethod3, pyTruthy, hfil]
    unfold find_cover_bytes
    rw [h1, h2, h3]
    rfl
  · intro decode encode
    rfl
  · intro items decode encode bytes hfind hdec
    show (match find_cover_bytes items with
      | none => none
      | some bytes =>
        match decode bytes with
        | none => none
        | some img =>
          match encode (resizeCover img) with
          | none => none
          | some payload => some (dataUrlHead ++ payload)) = none
    rw [hfind]
    show (match decode bytes with
      | none => none
      | some img =>
        match encode (resizeCover img) with
        | none => none
        | some payload => some (dataUrlHead ++ payload)) = none
    rw [hdec]
  · intro items decode encode bytes img hfind hdec henc
    show (match find_cover_bytes items with
      | none => none
      | some bytes =>
        match decode bytes with
        | none => none
        | some img =>
          match encode (resizeCover img) with
          | none => none
          | some payload => some (dataUrlHead ++ payload)) = none
    rw [hfind]
    show (match decode bytes with
      | none => none
      | some img2 =>
        match encode (resizeCover img2) with
        | none => none
        | some payload => some (dataUrlHead ++ payload)) = none
    rw [hdec]
    show (match encode (resizeCover img) with
      | none => none
      | some payload => some (dataUrlHead ++ payload)) = none
    rw [henc]

/-- Witness for the amended C5: an explicitly typed cover entry with
EMPTY content is falsy, so the search falls through to tier 2, which
selects the second image because only its filename contains "cover" —
exercising both the falsy fallthrough and the filename-only match. -/
theorem find_cover_bytes_tiers_witness :
    find_cover_bytes
      [{ id := "c0", name := "titlepage", itemType := .cover, content := [] },
       { id := "i1", name := "photo.jpg", itemType := .image, content := [1] },
       { id := "i2", name := "Cover.jpg", itemType := .image, content := [2] }] =
      some [2] :=
  find_cover_bytes_tiers.2.2.1
    [{ id := "c0", name := "titlepage", itemType := .cover, content := [] },
     { id := "i1", name := "photo.jpg", itemType := .image, content := [1] },
     { id := "i2", name := "Cover.jpg", itemType := .image, content := [2] }]
    [{ id := "i1", name := "photo.jpg", itemType := .image, content := [1] }]
    { id := "i2", name := "Cover.jpg", itemType := .image, content := [2] } []
    (by decide) (by decide) (by decide) (by decide) (by decide)

lemma floorCeilFacts (a h : Nat) (hh : 0 < h) :
    h * (a / h) ≤ a ∧ a < h * (a / h) + h ∧
    a ≤ h * ((a + h - 1) / h) ∧ h * ((a + h - 1) / h) ≤ a + h - 1 ∧
    a / h ≤ (a + h - 1) / h := by
  have h1 := Nat.div_add_mod a h
  have h2 := Nat.mod_lt a hh
  have h3 := Nat.div_add_mod (a + h - 1) h
  have h4 := Nat.mod_lt (a + h - 1) hh
  refine ⟨by omega, by omega, by omega, by omega, ?_⟩
  exact Nat.le_of_mul_le_mul_left (by omega) hh

lemma roundAspectW_cases (w h : Nat) :
    roundAspectW w h = max (600 * w / h) 1 ∨
    roundAspectW w h = max ((600 * w + h - 1) / h) 1 := by
  simp only [roundAspectW]
  split
  · exact Or.inl rfl
  · exact Or.inr rfl

lemma roundAspectH_cases (w h : Nat) :
    roundAspectH w h = max (400 * h / w) 1 ∨
    roundAspectH w h = max ((400 * h + w - 1) / w) 1 := by
  simp only [roundAspectH]
  split <;> split <;> split <;>
    first
      | exact Or.inl rfl
      | exact Or.inr rfl

lemma roundAspectW_bounds (w h : Nat) (hw : 1 ≤ w) (hh : 601 ≤ h)
    (hwh : 600 * w ≤ 400 * h) :
    roundAspectW w h ≤ 400 ∧ roundAspectW w h ≤ w ∧ 1 ≤ roundAspectW w h ∧
    600 * w ≤ h * roundAspectW w h + h ∧ h * roundAspectW w h ≤ 600 * w + h := by
  obtain hcase | hcase := roundAspectW_cases w h
  all_goals
    obtain ⟨p1, p2, p3, p4, p5⟩ := floorCeilFacts (600 * w) h (by omega)
    set f := 600 * w / h with hfdef
    set c := (600 * w + h - 1) / h with hcdef
    have hcmul : 600 * w ≤ h * w := Nat.mul_le_mul_right w (by omega : 600 ≤ h)
    have hc400 : c ≤ 400 := by
      have hlt : h * c < h * 401 := by omega
      have := Nat.lt_of_mul_lt_mul_left hlt
      omega
    have hcw : c ≤ w := by
      have hexp : h * (w + 1) = h * w + h := by ring
      have hlt : h * c < h * (w + 1) := by omega
      have := Nat.lt_of_mul_lt_mul_left hlt
      omega
    have hc1 : 1 ≤ c := by
      rcases Nat.eq_zero_or_pos c with h0 | h1
      · rw [h0, Nat.mul_zero] at p3
        omega
      · exact h1
  · rw [hcase]
    rcases Nat.eq_zero_or_pos f with hf0 | hf1
    · rw [hf0, Nat.mul_zero] at p1 p2
      rw [hf0]
      have hm1 : max 0 1 = 1 := rfl
      rw [hm1, Nat.mul_one]
      omega
    · rw [Nat.max_eq_left hf1]
      refine ⟨by omega, by omega, by omega, by omega, by omega⟩
  · rw [hcase, Nat.max_eq_left hc1]
    refine ⟨hc400, hcw, hc1, by omega, by omega⟩

lemma roundAspectH_bounds (w h : Nat) (hw : 401 ≤ w) (hh : 1 ≤ h)
    (hwh : 400 * h < 600 * w) :
    roundAspectH w h ≤ 600 ∧ roundAspectH w h ≤ h ∧ 1 ≤ roundAspectH w h ∧
    400 * h ≤ w * roundAspectH w h + w ∧ w * roundAspectH w h ≤ 400 * h + w := by
  obtain hcase | hcase := roundAspectH_cases w h
  all_goals
    obtain ⟨p1, p2, p3, p4, p5⟩ := floorCeilFacts (400 * h) w (by omega)
    set f := 400 * h / w with hfdef
    set c := (400 * h + w - 1) / w with hcdef
    have hcmul : 400 * h ≤ w * h := Nat.mul_le_mul_right h (by omega : 400 ≤ w)
    have hc600 : c ≤ 600 := by
      have hlt : w * c < w * 601 := by omega
      have := Nat.lt_of_mul_lt_mul_left hlt
      omega
    have hch : c ≤ h := by
      have hexp : w * (h + 1) = w * h + w := by ring
      have hlt : w * c < w * (h + 1) := by omega
      have := Nat.lt_of_mul_lt_mul_left hlt
      omega
    have hc1 : 1 ≤ c := by
      rcases Nat.eq_zero_or_pos c with h0 | h1
      · rw [h0, Nat.mul_zero] at p3
        omega
      · exact h1
  · rw [hcase]
    rcases Nat.eq_zero_or_pos f with hf0 | hf1
    · rw [hf0, Nat.mul_zero] at p1 p2
      rw [hf0]
      have hm1 : max 0 1 = 1 := rfl
      rw [hm1, Nat.mul_one]
      omega
    · rw [Nat.max_eq_left hf1]
      refine ⟨by omega, by omega, by omega, by omega, by omega⟩
  · rw [hcase, Nat.max_eq_left hc1]
    refine ⟨hc600, hch, hc1, by omega, by omega⟩

lemma thumbnail_dims_bounds (w h : Nat) (hw : 1 ≤ w) (hh : 1 ≤ h) :
    (thumbnail_dims w h).1 ≤ 400 ∧ (thumbnail_dims w h).2 ≤ 600 ∧
    (thumbnail_dims w h).1 ≤ w ∧ (thumbnail_dims w h).2 ≤ h ∧
    1 ≤ (thumbnail_dims w h).1 ∧ 1 ≤ (thumbnail_dims w h).2 ∧
    (thumbnail_dims w h).1 * h ≤ w * (thumbnail_dims w h).2 + max w h ∧
    w * (thumbnail_dims w h).2 ≤ (thumbnail_dims w h).1 * h + max w h := by
  unfold thumbnail_dims
  split
  · rename_i hfit
    dsimp only
    omega
  · rename_i hbig
    split
    · rename_i htall
      have hh601 : 601 ≤ h := by omega
      obtain ⟨q1, q2, q3, q4, q5⟩ := roundAspectW_bounds w h hw hh601 (by omega)
      have hcomm : roundAspectW w h * h = h * roundAspectW w h := Nat.mul_comm _ _
      dsimp only
      omega
    · rename_i hwide
      have hw401 : 401 ≤ w := by omega
      obtain ⟨q1, q2, q3, q4, q5⟩ := roundAspectH_bounds w h hw401 hh (by omega)
      dsimp only
      omega

/-- C6: whenever `extract_cover` produces a payload, the re-encoded image
is the selected candidate resized by `thumbnail`: its dimensions never
exceed 400 wide or 600 high, each axis is never upscaled beyond the
decoded input, the aspect ratio is preserved within rounding tolerance
(cross-multiplied widths and heights differ by at most `max w h`), and the
result string is exactly `dataUrlHead ++ payload`, i.e. of the form
data:image/jpeg;base64,payload.  The decode oracle is assumed to produce
images with positive dimensions, as PIL does. -/
theorem extract_cover_bounded (items : List EpubItem)
    (decode : List Nat → Option Img) (encode : Img → Option String) (s : String)
    (hres : extract_cover (some items) decode encode = some s)
    (hdec : ∀ b img, decode b = some img → 1 ≤ img.width ∧ 1 ≤ img.height) :
    ∃ bytes img payload,
      find_cover_bytes items = some bytes ∧ decode bytes = some img ∧
      encode (resizeCover img) = some payload ∧ s = dataUrlHead ++ payload ∧
      (resizeCover img).width ≤ 400 ∧ (resizeCover img).height ≤ 600 ∧
      (resizeCover img).width ≤ img.width ∧
      (resizeCover img).height ≤ img.height ∧
      (resizeCover img).width * img.height ≤
        img.width * (resizeCover img).height + max img.width img.height ∧
      img.width * (resizeCover img).height ≤
        (resizeCover img).width * img.height + max img.width img.height := by
  replace hres : (match find_cover_bytes items with
    | none => none
    | some bytes =>
      match decode bytes with
      | none => none
      | some img =>
        match encode (resizeCover img) with
        | none => none
        | some payload => some (dataUrlHead ++ payload)) = some s := hres
  cases hfb : find_cover_bytes items with
  | none =>
    rw [hfb] at hres
    exact absurd hres (by simp)
  | some bytes =>
    rw [hfb] at hres
    replace hres : (match decode bytes with
      | none => none
      | some img =>
        match encode (resizeCover img) with
        | none => none
        | some payload => some (dataUrlHead ++ payload)) = some s := hres
    cases hdc : decode bytes with
    | none =>
      rw [hdc] at hres
      exact absurd hres (by simp)
    | some img =>
      rw [hdc] at hres
      replace hres : (match encode (resizeCover img) with
        | none => none
        | some payload => some (dataUrlHead ++ payload)) = some s := hres
      cases henc : encode (resizeCover img) with
      | none =>
        rw [henc] at hres
        exact absurd hres (by simp)
      | some payload =>
        rw [henc] at hres
        have hs : s = dataUrlHead ++ payload := by
          injection hres with hres2
          exact hres2.symm
        obtain ⟨hw, hh⟩ := hdec bytes img hdc
        obtain ⟨q1, q2, q3, q4, q5, q6, q7, q8⟩ :=
          thumbnail_dims_bounds img.width img.height hw hh
        exact ⟨bytes, img, payload, rfl, hdc, henc, hs, q1, q2, q3, q4, q7, q8⟩

/-- Concrete manifest with one explicitly typed cover item, for the
witness. -/
def itemsProbe : List EpubItem :=
  [{ id := "c1", name := "cover.png", itemType := .cover, content := [5] }]

/-- Concrete decode oracle: every byte list decodes to an 800 by 1200
image. -/
def decodeProbe : List Nat → Option Img :=
  fun _ => some { width := 800, height := 1200 }

/-- Concrete encode oracle: encoding always succeeds with a fixed base64
payload. -/
def encodeProbe : Img → Option String :=
  fun _ => some "QUJD"

/-- Witness for C6: on the probe manifest the cover pipeline succeeds and
the theorem instantiates, exhibiting the bounded resize of the 800 by 1200
decoded image (to 400 by 600) and the data-url shape of the result. -/
theorem extract_cover_bounded_witness :
    ∃ bytes img payload,
      find_cover_bytes itemsProbe = some bytes ∧ decodeProbe bytes = some img ∧
      encodeProbe (resizeCover img) = some payload ∧
      dataUrlHead ++ "QUJD" = dataUrlHead ++ payload ∧
      (resizeCover img).width ≤ 400 ∧ (resizeCover img).height ≤ 600 ∧
      (resizeCover img).width ≤ img.width ∧
      (resizeCover img).height ≤ img.height ∧
      (resizeCover img).width * img.height ≤
        img.width * (resizeCover img).height + max img.width img.height ∧
      img.width * (resizeCover img).height ≤
        (resizeCover img).width * img.height + max img.width img.height :=
  extract_cover_bounded itemsProbe decodeProbe encodeProbe
    (dataUrlHead ++ "QUJD") rfl
    (fun b img h => by
      cases h
      exact ⟨by decide, by decide⟩)
